import Mathlib

/-!
Verification of the ecomgo user-authentication core

A shallow embedding, in Lean 4, of the user registration / login / lookup
flow of the `ecomgo` backend: the service layer (`UserService` in
`service.go`), the repository layer (`UserRepository` in
`repository/user.go`), the data model (`models/user.go`), and the HTTP
handlers (`routes.go`), together with the parts of their environment the
code observably depends on (Go's `crypto/sha256`, `encoding/hex`,
`encoding/json` field tags, and the GORM/MySQL store semantics implied by
the struct tags `primaryKey`, `uniqueIndex` and `gorm.DeletedAt`).

Machine words are modelled as `Nat` with explicit reduction modulo `2^32`;
Go `error` values as an explicit error type; fallible calls as `Except`.
-/

/-! ## Go `crypto/sha256` and `encoding/hex`

`UserService.hashPassword` calls `sha256.Sum256([]byte(password))` and
`hex.EncodeToString(hash[:])`.  This section embeds FIPS 180-4 SHA-256
over byte lists (`List Nat`, each entry a byte value) and lowercase hex
encoding, exactly as the Go standard library computes them. -/

/-- 2^32, the modulus of SHA-256 word arithmetic. -/
def w32 : Nat := 4294967296

/-- Right-rotation of a 32-bit word. -/
def rotr (n x : Nat) : Nat := ((x >>> n) ||| (x <<< (32 - n))) % w32

/-- Bitwise complement of a 32-bit word. -/
def bnot32 (x : Nat) : Nat := (w32 - 1) ^^^ x

/-- SHA-256 `Ch(e,f,g)`. -/
def shaCh (e f g : Nat) : Nat := (e &&& f) ^^^ (bnot32 e &&& g)

/-- SHA-256 `Maj(a,b,c)`. -/
def shaMaj (a b c : Nat) : Nat := (a &&& b) ^^^ (a &&& c) ^^^ (b &&& c)

/-- SHA-256 `Σ0`. -/
def bsig0 (x : Nat) : Nat := rotr 2 x ^^^ rotr 13 x ^^^ rotr 22 x

/-- SHA-256 `Σ1`. -/
def bsig1 (x : Nat) : Nat := rotr 6 x ^^^ rotr 11 x ^^^ rotr 25 x

/-- SHA-256 `σ0`. -/
def ssig0 (x : Nat) : Nat := rotr 7 x ^^^ rotr 18 x ^^^ (x >>> 3)

/-- SHA-256 `σ1`. -/
def ssig1 (x : Nat) : Nat := rotr 17 x ^^^ rotr 19 x ^^^ (x >>> 10)

/-- The 64 SHA-256 round constants. -/
def shaK : List Nat :=
  [1116352408, 1899447441, 3049323471, 3921009573, 961987163,
   1508970993, 2453635748, 2870763221, 3624381080, 310598401,
   607225278, 1426881987, 1925078388, 2162078206, 2614888103,
   3248222580, 3835390401, 4022224774, 264347078, 604807628,
   770255983, 1249150122, 1555081692, 1996064986, 2554220882,
   2821834349, 2952996808, 3210313671, 3336571891, 3584528711,
   113926993, 338241895, 666307205, 773529912, 1294757372,
   1396182291, 1695183700, 1986661051, 2177026350, 2456956037,
   2730485921, 2820302411, 3259730800, 3345764771, 3516065817,
   3600352804, 4094571909, 275423344, 430227734, 506948616,
   659060556, 883997877, 958139571, 1322822218, 1537002063,
   1747873779, 1955562222, 2024104815, 2227730452, 2361852424,
   2428436474, 2756734187, 3204031479, 3329325298]

/-- The eight SHA-256 working variables. -/
structure Hstate where
  a : Nat
  b : Nat
  c : Nat
  d : Nat
  e : Nat
  f : Nat
  g : Nat
  h : Nat
  deriving Repr, DecidableEq

/-- The SHA-256 initial hash value. -/
def shaH0 : Hstate :=
  { a := 1779033703, b := 3144134277, c := 1013904242, d := 2773480762,
    e := 1359893119, f := 2600822924, g := 528734635, h := 1541459225 }

/-- Split a list into chunks of `n`, via explicit fuel (list length). -/
def chunksAux (n : Nat) : Nat → List Nat → List (List Nat)
  | 0, _ => []
  | _, [] => []
  | fuel + 1, l => l.take n :: chunksAux n fuel (l.drop n)

/-- Split a list into chunks of `n` elements. -/
def chunksOf (n : Nat) (l : List Nat) : List (List Nat) :=
  chunksAux n l.length l

/-- A 32-bit word from four big-endian bytes. -/
def wordOfBytes : List Nat → Nat
  | [b0, b1, b2, b3] => ((b0 * 256 + b1) * 256 + b2) * 256 + b3
  | _ => 0

/-- Four big-endian bytes of a 32-bit word. -/
def wordBytes (w : Nat) : List Nat :=
  [(w >>> 24) % 256, (w >>> 16) % 256, (w >>> 8) % 256, w % 256]

/-- The eight big-endian bytes of the 64-bit message bit length. -/
def lengthBytes (n : Nat) : List Nat :=
  [(n >>> 56) % 256, (n >>> 48) % 256, (n >>> 40) % 256, (n >>> 32) % 256,
   (n >>> 24) % 256, (n >>> 16) % 256, (n >>> 8) % 256, n % 256]

/-- SHA-256 padding: `0x80`, zeros to 56 mod 64, 8-byte bit length. -/
def sha256pad (msg : List Nat) : List Nat :=
  msg ++ [128] ++ List.replicate ((119 - (msg.length % 64)) % 64) 0
      ++ lengthBytes (8 * msg.length)

/-- One message-schedule extension step: append `w[t]` for the next `t`. -/
def schedStep (w : List Nat) : List Nat :=
  w ++ [(ssig1 (w.getD (w.length - 2) 0) + w.getD (w.length - 7) 0 +
         ssig0 (w.getD (w.length - 15) 0) + w.getD (w.length - 16) 0) % w32]

/-- The 64-entry message schedule from the 16 words of one block. -/
def schedule (w16 : List Nat) : List Nat := schedStep^[48] w16

/-- One SHA-256 compression round, consuming a `(k, w)` pair. -/
def shaRound (st : Hstate) (kw : Nat × Nat) : Hstate :=
  let t1 := (st.h + bsig1 st.e + shaCh st.e st.f st.g + kw.1 + kw.2) % w32
  let t2 := (bsig0 st.a + shaMaj st.a st.b st.c) % w32
  { a := (t1 + t2) % w32, b := st.a, c := st.b, d := st.c,
    e := (st.d + t1) % w32, f := st.e, g := st.f, h := st.g }

/-- Add two working states word-wise modulo `2^32`. -/
def addStates (x y : Hstate) : Hstate :=
  { a := (x.a + y.a) % w32, b := (x.b + y.b) % w32, c := (x.c + y.c) % w32,
    d := (x.d + y.d) % w32, e := (x.e + y.e) % w32, f := (x.f + y.f) % w32,
    g := (x.g + y.g) % w32, h := (x.h + y.h) % w32 }

/-- SHA-256 compression of one 64-byte block into the running state. -/
def shaCompress (st : Hstate) (block : List Nat) : Hstate :=
  let ws := schedule ((chunksOf 4 block).map wordOfBytes)
  addStates st ((shaK.zip ws).foldl shaRound st)

/-- The 32 digest bytes of SHA-256 over a byte list. -/
def sha256bytes (msg : List Nat) : List Nat :=
  let fin := ((chunksOf 64 (sha256pad msg)).foldl shaCompress shaH0)
  ([fin.a, fin.b, fin.c, fin.d, fin.e, fin.f, fin.g, fin.h].map wordBytes).flatten

/-- UTF-8 encoding of one character (Go `[]byte(string)` semantics). -/
def utf8EncodeChar (c : Char) : List Nat :=
  let n := c.toNat
  if n < 128 then [n]
  else if n < 2048 then [192 + n / 64, 128 + n % 64]
  else if n < 65536 then [224 + n / 4096, 128 + (n / 64) % 64, 128 + n % 64]
  else [240 + n / 262144, 128 + (n / 4096) % 64, 128 + (n / 64) % 64,
        128 + n % 64]

/-- The UTF-8 bytes of a string (Go `[]byte(password)`). -/
def strBytes (s : String) : List Nat := (s.data.map utf8EncodeChar).flatten

/-- Lowercase hex digit of a value below 16 (Go `encoding/hex` alphabet). -/
def hexDigit (n : Nat) : Char :=
  if n < 10 then Char.ofNat (48 + n) else Char.ofNat (87 + n)

/-- Two lowercase hex digits of a byte. -/
def byteHex (b : Nat) : List Char := [hexDigit (b / 16 % 16), hexDigit (b % 16)]

/-- Go `hex.EncodeToString` over a byte list. -/
def hexEncode (bs : List Nat) : String := String.mk ((bs.map byteHex).flatten)

/-! ## Data model (`models/user.go`)

Go struct fields keep their names.  `time.Time` instants are modelled as
`Nat` milliseconds; `gorm.DeletedAt` as `Option Nat` (`none` = not
deleted).  Go's `error` is modelled as `GoError`: either a message built
by `errors.New`, or an error value surfaced by the GORM/MySQL store. -/

/-- Go `models.User`: `ID` is a `char(36)` primary key, `Email` has a unique
index, `PasswordHash` and `DeletedAt` carry the JSON tag `"-"`. -/
structure User where
  id : String
  email : String
  passwordHash : String
  firstName : String
  lastName : String
  createdAt : Nat
  updatedAt : Nat
  deletedAt : Option Nat
  deriving Repr, DecidableEq

/-- Go `models.RegisterRequest` (all four JSON fields). -/
structure RegisterRequest where
  email : String
  password : String
  firstName : String
  lastName : String
  deriving Repr, DecidableEq

/-- Go `models.LoginRequest`. -/
structure LoginRequest where
  email : String
  password : String
  deriving Repr, DecidableEq

/-- Go `models.AuthResponse`: token, user pointer, `ExpiresAt int64`. -/
structure AuthResponse where
  token : String
  user : User
  expiresAt : Int
  deriving Repr, DecidableEq

/-- A GORM error value as the repository observes it: the sentinel
`gorm.ErrRecordNotFound`, a MySQL duplicate-key error from the unique
constraints, or any other driver/infrastructure failure. -/
inductive GormErr where
  | recordNotFound
  | duplicateKey
  | other (m : String)
  deriving Repr, DecidableEq

/-- A Go `error` value flowing through this code: either a message created
with `errors.New`, or a store error propagated unchanged. -/
inductive GoError where
  | msg (m : String)
  | gorm (e : GormErr)
  deriving Repr, DecidableEq

/-- The database state behind `*gorm.DB`: the `users` table plus the
store clock used for `autoCreateTime`/`autoUpdateTime`. -/
structure Store where
  users : List User
  now : Nat
  deriving Repr, DecidableEq

/-- Injected infrastructure failures for the three store calls the core
performs, modelling that any underlying database call can fail.  `none`
means the call reaches the table normally. -/
structure StoreFaults where
  byEmail : Option GormErr
  create : Option GormErr
  byId : Option GormErr
  deriving Repr, DecidableEq

/-- A healthy store: no injected failures. -/
def noFaults : StoreFaults := ⟨none, none, none⟩

/-! ## GORM/MySQL store semantics

`First` denotes `ORDER BY id LIMIT 1` over the rows matching the `Where`
clause; the default GORM scope excludes soft-deleted rows
(`deleted_at IS NULL`).  `Create` inserts the struct as-is — GORM does
not generate values for string primary keys — and fails with a
duplicate-key error when the primary key (`id`) or the unique index
(`email`) collides with any existing row, soft-deleted rows included
(the unique index is over the bare column). -/

/-- GORM `First`: the matching row with the least primary key, if any. -/
def gormFirst (l : List User) : Option User :=
  l.foldl (fun acc u =>
    match acc with
    | none => some u
    | some v => if u.id < v.id then some u else some v) none

/-- Embeds `db.Where("email = ?", email).First(user)`. -/
def dbFindByEmail (fault : Option GormErr) (s : Store) (email : String) :
    Except GormErr User :=
  match fault with
  | some e => .error e
  | none =>
    match gormFirst (s.users.filter
        (fun u => u.deletedAt == none && u.email == email)) with
    | some u => .ok u
    | none => .error .recordNotFound

/-- Embeds `db.Where("id = ?", id).First(user)`. -/
def dbFindById (fault : Option GormErr) (s : Store) (id : String) :
    Except GormErr User :=
  match fault with
  | some e => .error e
  | none =>
    match gormFirst (s.users.filter
        (fun u => u.deletedAt == none && u.id == id)) with
    | some u => .ok u
    | none => .error .recordNotFound

/-- Embeds `db.Create(user)`: reject a duplicate `id` or `email` against any
existing row; otherwise insert with store-assigned timestamps, returning
the row as written back into the passed struct. -/
def dbCreate (fault : Option GormErr) (s : Store) (user : User) :
    Except GormErr (User × Store) :=
  match fault with
  | some e => .error e
  | none =>
    if s.users.any (fun v => v.id == user.id || v.email == user.email) then
      .error .duplicateKey
    else
      let u := { user with createdAt := s.now, updatedAt := s.now }
      .ok (u, { users := s.users ++ [u], now := s.now })

/-! ## Repository layer (`repository/user.go`) -/

/-- Go `UserRepository.GetUserByEmail`: map `gorm.ErrRecordNotFound` to
`errors.New("user not found")`, return any other error unchanged. -/
def UserRepository.GetUserByEmail (fault : Option GormErr) (s : Store)
    (email : String) : Except GoError User :=
  match dbFindByEmail fault s email with
  | .error .recordNotFound => .error (.msg "user not found")
  | .error e => .error (.gorm e)
  | .ok u => .ok u

/-- Go `UserRepository.GetUserByID`: same error mapping as by-email. -/
def UserRepository.GetUserByID (fault : Option GormErr) (s : Store)
    (id : String) : Except GoError User :=
  match dbFindById fault s id with
  | .error .recordNotFound => .error (.msg "user not found")
  | .error e => .error (.gorm e)
  | .ok u => .ok u

/-- Go `UserRepository.CreateUser`: return any insert error unchanged. -/
def UserRepository.CreateUser (fault : Option GormErr) (s : Store)
    (user : User) : Except GoError (User × Store) :=
  match dbCreate fault s user with
  | .error e => .error (.gorm e)
  | .ok r => .ok r

/-! ## Service layer (`service.go`) -/

/-- Go `UserService.hashPassword`: `hex.EncodeToString(sha256.Sum256(...))`. -/
def UserService.hashPassword (password : String) : String :=
  hexEncode (sha256bytes (strBytes password))

/-- Go `UserService.verifyPassword`: recompute the hash and compare. -/
def UserService.verifyPassword (password hash : String) : Bool :=
  UserService.hashPassword password == hash

/-- Go `UserService.generateToken`: a constant header concatenated with the
raw user id. -/
def UserService.generateToken (userID : String) : String :=
  "eyJhbGciOiJIUzI1NiIsInR5cCI6IkpXVCJ9." ++ userID

/-- Go `UserService.Register`.  The existence-check error is discarded with
`_`; the `models.User` literal leaves `ID` at its Go zero value `""` and
the timestamps at their zero values; a `CreateUser` error is returned
unchanged. -/
def UserService.Register (f : StoreFaults) (s : Store)
    (req : RegisterRequest) : Except GoError (AuthResponse × Store) :=
  let existingUser := (UserRepository.GetUserByEmail f.byEmail s req.email).toOption
  match existingUser with
  | some _ => .error (.msg "user already exists")
  | none =>
    let hashedPassword := UserService.hashPassword req.password
    let user : User :=
      { id := "", email := req.email, passwordHash := hashedPassword,
        firstName := req.firstName, lastName := req.lastName,
        createdAt := 0, updatedAt := 0, deletedAt := none }
    match UserRepository.CreateUser f.create s user with
    | .error e => .error e
    | .ok (u, s') =>
      .ok ({ token := UserService.generateToken u.id, user := u,
             expiresAt := 0 }, s')

/-- Go `UserService.Login`: any `GetUserByEmail` error becomes
`errors.New("invalid credentials")`, as does a failed password check. -/
def UserService.Login (f : StoreFaults) (s : Store) (req : LoginRequest) :
    Except GoError AuthResponse :=
  match UserRepository.GetUserByEmail f.byEmail s req.email with
  | .error _ => .error (.msg "invalid credentials")
  | .ok user =>
    if !UserService.verifyPassword req.password user.passwordHash then
      .error (.msg "invalid credentials")
    else
      .ok { token := UserService.generateToken user.id, user := user,
            expiresAt := 0 }

/-- Go `UserService.GetUserByID`: delegate and propagate errors unchanged. -/
def UserService.GetUserByID (f : StoreFaults) (s : Store) (id : String) :
    Except GoError User :=
  match UserRepository.GetUserByID f.byId s id with
  | .error e => .error e
  | .ok user => .ok user

/-! ## Outward JSON serialization (`encoding/json` with the struct tags)

`PasswordHash` and `DeletedAt` carry the tag `json:"-"` and are never
emitted; the remaining `User` fields are emitted under their tag names.
Go emits `time.Time` as RFC 3339 strings; only the instant matters here,
so timestamps are emitted as their numeric value. -/

/-- A JSON value (as much of it as these responses need). -/
inductive JValue where
  | str (s : String)
  | num (n : Int)
  | obj (fields : List (String × JValue))
  deriving Repr

/-- Go `json.Marshal` of `models.User` under its field tags. -/
def userToJSON (u : User) : JValue :=
  .obj [("id", .str u.id), ("email", .str u.email),
        ("first_name", .str u.firstName), ("last_name", .str u.lastName),
        ("created_at", .num u.createdAt), ("updated_at", .num u.updatedAt)]

/-- Go `json.Marshal` of `models.AuthResponse`. -/
def authResponseToJSON (a : AuthResponse) : JValue :=
  .obj [("token", .str a.token), ("user", userToJSON a.user),
        ("expires_at", .num a.expiresAt)]

/-- The keys of a top-level JSON object. -/
def objKeys : JValue → List String
  | .obj fields => fields.map Prod.fst
  | _ => []

/-! ## HTTP handlers (`routes.go`)

A decoded body is `some req`; `none` models a body `json.Decode`
rejects.  Responses are a status code and a body. -/

/-- An HTTP response body: encoded JSON or an `http.Error` text. -/
inductive HTTPBody where
  | json (v : JValue)
  | text (s : String)
  deriving Repr

/-- Go `err.Error()` for the error values this code produces. -/
def goErrMessage : GoError → String
  | .msg m => m
  | .gorm .recordNotFound => "record not found"
  | .gorm .duplicateKey => "Error 1062 (23000): Duplicate entry"
  | .gorm (.other m) => m

/-- Go `Handler.handleRegister`: 400 on decode failure, 400 with
`err.Error()` on service failure, 201 with the JSON response on success. -/
def Handler.handleRegister (f : StoreFaults) (s : Store)
    (body : Option RegisterRequest) : Nat × HTTPBody × Store :=
  match body with
  | none => (400, .text "Invalid request", s)
  | some req =>
    match UserService.Register f s req with
    | .error e => (400, .text (goErrMessage e), s)
    | .ok (authResp, s') => (201, .json (authResponseToJSON authResp), s')

/-- Go `Handler.handleLogin`: 400 on decode failure, 401 on service failure,
200 with the JSON response on success. -/
def Handler.handleLogin (f : StoreFaults) (s : Store)
    (body : Option LoginRequest) : Nat × HTTPBody :=
  match body with
  | none => (400, .text "Invalid request")
  | some req =>
    match UserService.Login f s req with
    | .error _ => (401, .text "Invalid credentials")
    | .ok authResp => (200, .json (authResponseToJSON authResp))

/-- A `GET /users/{id}` request: the path variable and the Authorization
header the caller presented (which `handleGetUser` never reads). -/
structure GetUserRequest where
  pathID : String
  authHeader : Option String

/-- Go `Handler.handleGetUser`: extract the path id variable, 404 on any
service error, 200 with the serialized user on success. -/
def Handler.handleGetUser (f : StoreFaults) (s : Store)
    (req : GetUserRequest) : Nat × HTTPBody :=
  match UserService.GetUserByID f s req.pathID with
  | .error _ => (404, .text "User not found")
  | .ok user => (200, .json (userToJSON user))

/-! ## Helpers for stating the claims -/

/-- A placeholder user, used only as the default of the extractors. -/
def placeholderUser : User :=
  { id := "", email := "", passwordHash := "", firstName := "",
    lastName := "", createdAt := 0, updatedAt := 0, deletedAt := none }

/-- The `AuthResponse` of a successful `Register` result. -/
def okAuth : Except GoError (AuthResponse × Store) → AuthResponse
  | .ok (a, _) => a
  | .error _ => { token := "", user := placeholderUser, expiresAt := 0 }

/-- The post-state of a successful `Register` result. -/
def okStore : Except GoError (AuthResponse × Store) → Store
  | .ok (_, s') => s'
  | .error _ => { users := [], now := 0 }

/-- The `AuthResponse` of a successful `Login` result. -/
def okLoginAuth : Except GoError AuthResponse → AuthResponse
  | .ok a => a
  | .error _ => { token := "", user := placeholderUser, expiresAt := 0 }

/-- No non-deleted user in the store holds the given email. -/
def noActiveUser (s : Store) (email : String) : Bool :=
  s.users.all (fun u => !(u.deletedAt == none && u.email == email))

/-- Split a character list on a separator character. -/
def splitOnChar (sep : Char) : List Char → List (List Char)
  | [] => [[]]
  | c :: cs =>
    let r := splitOnChar sep cs
    if c == sep then [] :: r else (c :: r.headD []) :: r.tail

/-- Modelled from the spec: the input-validation contract's email shape
("email required and RFC-shaped", a "basic email-shaped pattern") — one
`@` splitting a non-empty local part from a non-empty domain containing a
dot.  No code under `src/` implements any email validation. -/
def specValidEmail (email : String) : Bool :=
  match splitOnChar '@' email.data with
  | [l, d] => !l.isEmpty && !d.isEmpty && d.contains '.'
  | _ => false

/-- Modelled from the spec: the input-validation contract's password rule
("password required, minimum 6 characters").  No code under `src/`
implements any password validation. -/
def specValidPassword (password : String) : Bool := 6 ≤ password.length

/-- An empty users table. -/
def emptyStore : Store := { users := [], now := 1700000000000 }

/-- The registration request of the spec's §8 scenario. -/
def reqA : RegisterRequest :=
  { email := "a@x.com", password := "secret1", firstName := "A",
    lastName := "" }

/-- Did a Go call return without error? -/
def succeeded {ε α : Type} : Except ε α → Bool
  | .ok _ => true
  | .error _ => false

/-! ### Unfolding equations for the store and service operations -/

deriving instance DecidableEq for Except

set_option maxRecDepth 8000

/-- A stored user whose password is "secret1". -/
def storedUserA : User :=
  { id := "u1", email := "a@x.com",
    passwordHash := UserService.hashPassword "secret1", firstName := "A",
    lastName := "", createdAt := 0, updatedAt := 0, deletedAt := none }

/-- A store holding exactly `storedUserA`. -/
def oneUserStore : Store := { users := [storedUserA], now := 1700000000000 }

/-- A store holding only a soft-deleted user with email `a@x.com`. -/
def deletedUserStore : Store :=
  { users := [{ id := "u-old", email := "a@x.com", passwordHash := "h",
                firstName := "", lastName := "", createdAt := 0,
                updatedAt := 0, deletedAt := some 5 }],
    now := 1700000000000 }

/-- The digest bytes of a password, reduced into a finite type. -/
def digestFingerprint (p : String) : Fin 32 → Fin 256 :=
  fun i => ⟨(sha256bytes (strBytes p)).getD i 0 % 256,
            Nat.mod_lt _ (by norm_num)⟩

/-- Fetching by email over a table with no matching live row yields the
repository's not-found error. -/
theorem getByEmail_nil (s : Store) (e : String)
    (h : s.users.filter (fun u => u.deletedAt == none && u.email == e) = []) :
    UserRepository.GetUserByEmail none s e = .error (.msg "user not found") := by
  unfold UserRepository.GetUserByEmail dbFindByEmail
  rw [h]
  rfl

/-- Fetching by email when exactly one live row matches returns it. -/
theorem getByEmail_single (s : Store) (e : String) (u : User)
    (h : s.users.filter (fun v => v.deletedAt == none && v.email == e) = [u]) :
    UserRepository.GetUserByEmail none s e = .ok u := by
  unfold UserRepository.GetUserByEmail dbFindByEmail
  rw [h]
  rfl

/-- Unfolding `Register` past a duplicate check that observed nothing
(`toOption` of the lookup is `none`, found user or not). -/
theorem register_eq_of_lookup_none (f : StoreFaults) (s : Store)
    (req : RegisterRequest)
    (h : (UserRepository.GetUserByEmail f.byEmail s req.email).toOption = none) :
    UserService.Register f s req =
      match UserRepository.CreateUser f.create s
          { id := "", email := req.email,
            passwordHash := UserService.hashPassword req.password,
            firstName := req.firstName, lastName := req.lastName,
            createdAt := 0, updatedAt := 0, deletedAt := none } with
      | .error e => .error e
      | .ok (u, s') =>
          .ok ({ token := UserService.generateToken u.id, user := u,
                 expiresAt := 0 }, s') := by
  unfold UserService.Register
  dsimp only
  rw [h]

/-- Unfolding `Register` when the duplicate check finds a user. -/
theorem register_eq_of_lookup_some (f : StoreFaults) (s : Store)
    (req : RegisterRequest) (u : User)
    (h : (UserRepository.GetUserByEmail f.byEmail s req.email).toOption = some u) :
    UserService.Register f s req = .error (.msg "user already exists") := by
  unfold UserService.Register
  dsimp only
  rw [h]

/-- Unfolding a conflict-free healthy insert. -/
theorem createUser_none_ok (s : Store) (user : User)
    (h : (s.users.any fun v => v.id == user.id || v.email == user.email) = false) :
    UserRepository.CreateUser none s user =
      .ok ({ user with createdAt := s.now, updatedAt := s.now },
           { users := s.users ++ [{ user with createdAt := s.now, updatedAt := s.now }],
             now := s.now }) := by
  unfold UserRepository.CreateUser dbCreate
  dsimp only
  rw [h]
  rfl

/-- Unfolding a healthy insert that hits a unique constraint. -/
theorem createUser_none_dup (s : Store) (user : User)
    (h : (s.users.any fun v => v.id == user.id || v.email == user.email) = true) :
    UserRepository.CreateUser none s user = .error (.gorm .duplicateKey) := by
  unfold UserRepository.CreateUser dbCreate
  dsimp only
  rw [h]
  rfl

/-- Unfolding `Login` when the fetch-by-email fails for any reason. -/
theorem login_eq_of_lookup_error (f : StoreFaults) (s : Store)
    (req : LoginRequest) (err : GoError)
    (h : UserRepository.GetUserByEmail f.byEmail s req.email = .error err) :
    UserService.Login f s req = .error (.msg "invalid credentials") := by
  unfold UserService.Login
  rw [h]

/-- Unfolding `Login` past a successful fetch-by-email. -/
theorem login_eq_of_lookup_ok (f : StoreFaults) (s : Store)
    (req : LoginRequest) (u : User)
    (h : UserRepository.GetUserByEmail f.byEmail s req.email = .ok u) :
    UserService.Login f s req =
      if !UserService.verifyPassword req.password u.passwordHash then
        .error (.msg "invalid credentials")
      else
        .ok { token := UserService.generateToken u.id, user := u,
              expiresAt := 0 } := by
  unfold UserService.Login
  rw [h]


/-- Without a live user under the email, the lookup's row filter is empty. -/
theorem filter_nil_of_noActive (s : Store) (e : String)
    (h : noActiveUser s e = true) :
    s.users.filter (fun u => u.deletedAt == none && u.email == e) = [] := by
  unfold noActiveUser at h
  rw [List.all_eq_true] at h
  rw [List.filter_eq_nil_iff]
  intro a ha
  have ha2 := h a ha
  simp only [Bool.not_eq_eq_eq_not, Bool.not_true] at ha2
  simp [ha2]

/-- Inversion for a successful `Register`: the exact response and
post-state it produced, and the absence of conflicting rows. -/
theorem register_ok_elim (f : StoreFaults) (s : Store) (req : RegisterRequest)
    (h : succeeded (UserService.Register f s req) = true) :
    UserService.Register f s req =
      .ok ({ token := UserService.generateToken "",
             user := { id := "", email := req.email,
                       passwordHash := UserService.hashPassword req.password,
                       firstName := req.firstName, lastName := req.lastName,
                       createdAt := s.now, updatedAt := s.now,
                       deletedAt := none },
             expiresAt := 0 },
           { users := s.users ++
               [{ id := "", email := req.email,
                  passwordHash := UserService.hashPassword req.password,
                  firstName := req.firstName, lastName := req.lastName,
                  createdAt := s.now, updatedAt := s.now, deletedAt := none }],
             now := s.now }) ∧
    (s.users.any fun v => v.id == "" || v.email == req.email) = false := by
  cases hl : (UserRepository.GetUserByEmail f.byEmail s req.email).toOption with
  | some u =>
    rw [register_eq_of_lookup_some f s req u hl] at h
    exact absurd h (by simp [succeeded])
  | none =>
    have he := register_eq_of_lookup_none f s req hl
    cases hf : f.create with
    | some e =>
      rw [hf] at he
      rw [show UserRepository.CreateUser (some e) s
            { id := "", email := req.email,
              passwordHash := UserService.hashPassword req.password,
              firstName := req.firstName, lastName := req.lastName,
              createdAt := 0, updatedAt := 0, deletedAt := none } =
          Except.error (GoError.gorm e) from rfl] at he
      rw [he] at h
      exact absurd h (by simp [succeeded])
    | none =>
      rw [hf] at he
      cases hany : (s.users.any fun v => v.id == "" || v.email == req.email) with
      | true =>
        rw [createUser_none_dup s _ hany] at he
        rw [he] at h
        exact absurd h (by simp [succeeded])
      | false =>
        rw [createUser_none_ok s _ hany] at he
        exact ⟨he.trans rfl, rfl⟩

/-- Inversion for a successful `Login`: the fetched user, the passed
password check, and the exact response. -/
theorem login_ok_elim (f : StoreFaults) (s : Store) (req : LoginRequest)
    (h : succeeded (UserService.Login f s req) = true) :
    ∃ u, UserRepository.GetUserByEmail f.byEmail s req.email = .ok u ∧
      UserService.verifyPassword req.password u.passwordHash = true ∧
      UserService.Login f s req =
        .ok { token := UserService.generateToken u.id, user := u,
              expiresAt := 0 } := by
  cases hl : UserRepository.GetUserByEmail f.byEmail s req.email with
  | error e =>
    rw [login_eq_of_lookup_error f s req e hl] at h
    exact absurd h (by simp [succeeded])
  | ok u =>
    have he := login_eq_of_lookup_ok f s req u hl
    cases hv : UserService.verifyPassword req.password u.passwordHash with
    | false =>
      rw [hv] at he
      simp only [Bool.not_false, if_true] at he
      rw [he] at h
      exact absurd h (by simp [succeeded])
    | true =>
      rw [hv] at he
      simp only [Bool.not_true, Bool.false_eq_true, if_false] at he
      exact ⟨u, rfl, hv, he⟩



/-- C1: the claim says every successful `Register` stores a non-empty,
store-generated, globally unique id.  The code refutes it: the service
builds the `models.User` literal without an `ID`, nothing anywhere
generates one, and GORM inserts string primary keys as-is — so every
user any successful `Register` creates has the empty id `""`. -/
theorem C1_register_assigns_empty_id (f : StoreFaults) (s : Store)
    (req : RegisterRequest)
    (h : succeeded (UserService.Register f s req) = true) :
    (okAuth (UserService.Register f s req)).user.id = "" := by
  obtain ⟨he, -⟩ := register_ok_elim f s req h
  rw [he]
  rfl

/-- Witness for `C1_register_assigns_empty_id` at the spec's §8 request
against an empty store. -/
theorem C1_register_assigns_empty_id_witness :
    (okAuth (UserService.Register noFaults emptyStore reqA)).user.id = "" :=
  C1_register_assigns_empty_id noFaults emptyStore reqA (by decide)

/-- C2: the claim says a missing/malformed email or a password shorter
than 6 characters fails with `InvalidInput` before any domain logic.
The code refutes it: with `email = ""` and `password = "a"` the register
handler runs the full domain path (hash, lookup, insert) and answers
201, and the login handler reaches the store lookup and answers 401
`Invalid credentials` — no validation and no `InvalidInput` exist. -/
theorem C2_validation_never_runs :
    (Handler.handleRegister noFaults emptyStore
        (some { email := "", password := "a", firstName := "",
                lastName := "" })).1 = 201 ∧
    (Handler.handleLogin noFaults emptyStore
        (some { email := "", password := "a" })).1 = 401 := by
  exact ⟨by decide, by decide⟩

/-- C3 counterexample: a register whose duplicate check sees nothing
(only a soft-deleted row holds the email) but whose insert hits the
email unique constraint returns the raw store duplicate-key error,
which is a different error value than the `AlreadyExists` error
(`"user already exists"`) of the existence check. -/
theorem C3_counterexample_conflict_is_store_error :
    UserService.Register noFaults deletedUserStore reqA =
      .error (.gorm .duplicateKey) ∧
    GoError.gorm .duplicateKey ≠ GoError.msg "user already exists" :=
  ⟨by decide, by decide⟩

/-- C3 amended: when the duplicate check passes but the insert violates
the email unique constraint, `Register` fails with the store's
duplicate-key error propagated verbatim — not with the `AlreadyExists`
kind of the existence check, from which it is distinct. -/
theorem C3_amended_insert_conflict_propagated (s : Store)
    (req : RegisterRequest) (hno : noActiveUser s req.email = true)
    (hdup : (s.users.any fun v => v.email == req.email) = true) :
    UserService.Register noFaults s req = .error (.gorm .duplicateKey) ∧
    GoError.gorm .duplicateKey ≠ GoError.msg "user already exists" := by
  refine ⟨?_, by simp⟩
  have hl : (UserRepository.GetUserByEmail noFaults.byEmail s req.email).toOption
      = none := by
    show (UserRepository.GetUserByEmail none s req.email).toOption = none
    rw [getByEmail_nil s req.email (filter_nil_of_noActive s req.email hno)]
    rfl
  have he := register_eq_of_lookup_none noFaults s req hl
  have hany : (s.users.any fun v => v.id == "" || v.email == req.email)
      = true := by
    rw [List.any_eq_true] at hdup ⊢
    obtain ⟨v, hv, hvm⟩ := hdup
    exact ⟨v, hv, by simp [hvm]⟩
  rw [show noFaults.create = none from rfl] at he
  rw [createUser_none_dup s _ hany] at he
  exact he.trans rfl

/-- Witness for `C3_amended_insert_conflict_propagated` on a store whose
only row with the email is soft-deleted. -/
theorem C3_amended_insert_conflict_propagated_witness :
    UserService.Register noFaults deletedUserStore reqA =
      .error (.gorm .duplicateKey) ∧
    GoError.gorm .duplicateKey ≠ GoError.msg "user already exists" :=
  C3_amended_insert_conflict_propagated deletedUserStore reqA
    (by decide) (by decide)

/-- C4 counterexample: a store failure during `Login`'s fetch-by-email
is reclassified as `invalid credentials`, and a store failure during
`Register`'s duplicate-email lookup is silently discarded — the
registration proceeds and succeeds. -/
theorem C4_counterexample_store_failures_misrouted :
    UserService.Login ⟨some (.other "connection refused"), none, none⟩
        oneUserStore { email := "a@x.com", password := "secret1" } =
      .error (.msg "invalid credentials") ∧
    succeeded (UserService.Register
        ⟨some (.other "connection refused"), none, none⟩ emptyStore reqA)
      = true :=
  ⟨rfl, by decide⟩

/-- C4 amended: store failures during `Register`'s insert and during
`GetUserByID`'s fetch are surfaced verbatim as the typed store error;
but `Register`'s duplicate-check lookup failure is discarded (the
result depends only on the insert), and `Login` reclassifies any
fetch-by-email failure as `invalid credentials`. -/
theorem C4_amended_store_failure_routing :
    (∀ (s : Store) (req : RegisterRequest) (m1 m2 : String),
        UserService.Register ⟨some (.other m1), some (.other m2), none⟩ s req =
          .error (.gorm (.other m2))) ∧
    (∀ (s : Store) (id m : String),
        UserService.GetUserByID ⟨none, none, some (.other m)⟩ s id =
          .error (.gorm (.other m))) ∧
    (∀ (s : Store) (req : LoginRequest) (m : String),
        UserService.Login ⟨some (.other m), none, none⟩ s req =
          .error (.msg "invalid credentials")) :=
  ⟨fun _ _ _ _ => rfl, fun _ _ _ => rfl, fun _ _ _ => rfl⟩

/-- C5: for every successful `Register`, `Login` and `GetUserByID`, the
user object serialized outward carries exactly the keys `id`, `email`,
`first_name`, `last_name`, `created_at`, `updated_at` — so
`password_hash` (tag `json:"-"`) is never serialized, while id, email
and the name fields are present. -/
theorem C5_outward_user_omits_password_hash :
    (∀ (f : StoreFaults) (s : Store) (req : RegisterRequest),
        succeeded (UserService.Register f s req) = true →
        objKeys (userToJSON (okAuth (UserService.Register f s req)).user) =
          ["id", "email", "first_name", "last_name", "created_at",
           "updated_at"]) ∧
    (∀ (f : StoreFaults) (s : Store) (req : LoginRequest),
        succeeded (UserService.Login f s req) = true →
        objKeys (userToJSON (okLoginAuth (UserService.Login f s req)).user) =
          ["id", "email", "first_name", "last_name", "created_at",
           "updated_at"]) ∧
    (∀ (f : StoreFaults) (s : Store) (id : String) (u : User),
        UserService.GetUserByID f s id = .ok u →
        objKeys (userToJSON u) =
          ["id", "email", "first_name", "last_name", "created_at",
           "updated_at"]) :=
  ⟨fun _ _ _ _ => rfl, fun _ _ _ _ => rfl, fun _ _ _ _ _ => rfl⟩

/-- Witness for `C5_outward_user_omits_password_hash` at the spec's §8
registration against an empty store. -/
theorem C5_outward_user_omits_password_hash_witness :
    objKeys (userToJSON (okAuth
        (UserService.Register noFaults emptyStore reqA)).user) =
      ["id", "email", "first_name", "last_name", "created_at",
       "updated_at"] :=
  C5_outward_user_omits_password_hash.1 noFaults emptyStore reqA (by decide)

/-- C6: a `Login` under an email no live user holds and a `Login` that
fetches a user but fails the password check produce the identical error
value `errors.New("invalid credentials")`, so the two causes are
indistinguishable to the caller. -/
theorem C6_login_failure_indistinguishable :
    (∀ (s : Store) (req : LoginRequest), noActiveUser s req.email = true →
        UserService.Login noFaults s req =
          .error (.msg "invalid credentials")) ∧
    (∀ (s : Store) (req : LoginRequest) (u : User),
        UserRepository.GetUserByEmail none s req.email = .ok u →
        UserService.hashPassword req.password ≠ u.passwordHash →
        UserService.Login noFaults s req =
          .error (.msg "invalid credentials")) := by
  constructor
  · intro s req h
    exact login_eq_of_lookup_error noFaults s req _
      (getByEmail_nil s req.email (filter_nil_of_noActive s req.email h))
  · intro s req u hu hne
    have he := login_eq_of_lookup_ok noFaults s req u hu
    have hv : UserService.verifyPassword req.password u.passwordHash = false := by
      unfold UserService.verifyPassword
      exact beq_eq_false_iff_ne.mpr hne
    rw [hv] at he
    simpa using he

/-- Witness for `C6_login_failure_indistinguishable`: an unknown email
and a wrong password against a one-user store. -/
theorem C6_login_failure_indistinguishable_witness :
    UserService.Login noFaults emptyStore
        { email := "b@x.com", password := "secret1" } =
      .error (.msg "invalid credentials") ∧
    UserService.Login noFaults oneUserStore
        { email := "a@x.com", password := "wrong" } =
      .error (.msg "invalid credentials") :=
  ⟨C6_login_failure_indistinguishable.1 emptyStore
      { email := "b@x.com", password := "secret1" } (by decide),
   C6_login_failure_indistinguishable.2 oneUserStore
      { email := "a@x.com", password := "wrong" } storedUserA
      (by decide) (by decide)⟩

/-- C9: `handleGetUser` performs no bearer-token validation — its
response is identical across any two requests that differ only in the
Authorization header, for every id, store state and fault pattern. -/
theorem C9_getuser_independent_of_auth_header (f : StoreFaults) (s : Store)
    (id : String) (h1 h2 : Option String) :
    Handler.handleGetUser f s ⟨id, h1⟩ = Handler.handleGetUser f s ⟨id, h2⟩ :=
  rfl

/-- C10: every successful `Register` and every successful `Login`
returns an `AuthResponse` whose `ExpiresAt` field is `0` — the Go zero
value of the omitted struct field; no code path populates it. -/
theorem C10_expires_at_never_populated :
    (∀ (f : StoreFaults) (s : Store) (req : RegisterRequest),
        succeeded (UserService.Register f s req) = true →
        (okAuth (UserService.Register f s req)).expiresAt = 0) ∧
    (∀ (f : StoreFaults) (s : Store) (req : LoginRequest),
        succeeded (UserService.Login f s req) = true →
        (okLoginAuth (UserService.Login f s req)).expiresAt = 0) := by
  constructor
  · intro f s req h
    obtain ⟨he, -⟩ := register_ok_elim f s req h
    rw [he]
    rfl
  · intro f s req h
    obtain ⟨u, -, -, he⟩ := login_ok_elim f s req h
    rw [he]
    rfl

/-- Witness for `C10_expires_at_never_populated`: a concrete successful
registration and a concrete successful login. -/
theorem C10_expires_at_never_populated_witness :
    (okAuth (UserService.Register noFaults emptyStore reqA)).expiresAt = 0 ∧
    (okLoginAuth (UserService.Login noFaults oneUserStore
        { email := "a@x.com", password := "secret1" })).expiresAt = 0 :=
  ⟨C10_expires_at_never_populated.1 noFaults emptyStore reqA (by decide),
   C10_expires_at_never_populated.2 noFaults oneUserStore
      { email := "a@x.com", password := "secret1" } (by decide)⟩

/-- A SHA-256 digest is exactly 32 bytes. -/
theorem sha256bytes_length (msg : List Nat) : (sha256bytes msg).length = 32 :=
  rfl

/-- Hex encoding of a byte position only sees its value modulo 256. -/
theorem byteHex_mod (b : Nat) : byteHex b = byteHex (b % 256) := by
  unfold byteHex
  have h1 : b / 16 % 16 = b % 256 / 16 % 16 := by omega
  have h2 : b % 16 = b % 256 % 16 := by omega
  rw [h1, h2]

/-- Hex character streams agree whenever the byte lists agree pointwise
modulo 256 and in length. -/
theorem hexChars_congr : ∀ (l1 l2 : List Nat), l1.length = l2.length →
    (∀ i, l1.getD i 0 % 256 = l2.getD i 0 % 256) →
    (l1.map byteHex).flatten = (l2.map byteHex).flatten
  | [], [], _, _ => rfl
  | [], _ :: _, hlen, _ => by simp at hlen
  | _ :: _, [], hlen, _ => by simp at hlen
  | a :: t1, b :: t2, hlen, hmod => by
    simp only [List.map_cons, List.flatten_cons]
    have h0 := hmod 0
    simp only [List.getD_cons_zero] at h0
    have hhd : byteHex a = byteHex b := by
      rw [byteHex_mod a, byteHex_mod b, h0]
    have htl := hexChars_congr t1 t2 (by simpa using hlen)
        (fun i => by have hi := hmod (i + 1); simpa using hi)
    rw [hhd, htl]

/-- Hex encodings agree whenever the byte lists agree pointwise modulo
256 and in length. -/
theorem hexEncode_congr (l1 l2 : List Nat) (hlen : l1.length = l2.length)
    (hmod : ∀ i, l1.getD i 0 % 256 = l2.getD i 0 % 256) :
    hexEncode l1 = hexEncode l2 :=
  congrArg String.mk (hexChars_congr l1 l2 hlen hmod)


/-- C7 counterexample: the claim's last conjunct — `Verify(p, Hash(q))`
is false for all `p ≠ q` — is false for the real hash: `hashPassword`
maps the infinitely many strings through a 32-byte digest, so by
pigeonhole two distinct plaintexts share a digest and `verifyPassword`
accepts the one against the other's hash. -/
theorem C7_counterexample_collision_exists :
    ¬ (∀ p q : String, p ≠ q →
        UserService.verifyPassword p (UserService.hashPassword q) = false) := by
  intro hall
  obtain ⟨p, q, hne, heq⟩ :=
    Finite.exists_ne_map_eq_of_infinite digestFingerprint
  have hmod : ∀ i : Nat, (sha256bytes (strBytes p)).getD i 0 % 256 =
      (sha256bytes (strBytes q)).getD i 0 % 256 := by
    intro i
    by_cases hi : i < 32
    · have h2 := congrArg Fin.val (congrFun heq ⟨i, hi⟩)
      simpa [digestFingerprint] using h2
    · rw [List.getD_eq_default _ _ (by rw [sha256bytes_length]; omega),
          List.getD_eq_default _ _ (by rw [sha256bytes_length]; omega)]
  have hhash : UserService.hashPassword p = UserService.hashPassword q := by
    unfold UserService.hashPassword
    exact hexEncode_congr _ _
      (by rw [sha256bytes_length, sha256bytes_length]) hmod
  have hv : UserService.verifyPassword p (UserService.hashPassword q) = true := by
    unfold UserService.verifyPassword
    rw [hhash]
    simp
  rw [hall p q hne] at hv
  exact Bool.false_ne_true hv

/-- C7 amended: `hashPassword` is a pure function of the plaintext
alone and `verifyPassword` recomputes it and compares for exact
equality (both total on all strings, the empty string included);
`Verify(p, Hash(p))` is always true; and for any `p`, `q`,
`Verify(p, Hash(q))` is true exactly when the two digests coincide —
for `p ≠ q` it is false unless SHA-256 collides on them. -/
theorem C7_amended_verify_iff_digest_equal :
    (∀ p : String,
        UserService.verifyPassword p (UserService.hashPassword p) = true) ∧
    (∀ p d : String,
        UserService.verifyPassword p d = (UserService.hashPassword p == d)) ∧
    (∀ p q : String,
        UserService.verifyPassword p (UserService.hashPassword q) = true ↔
          UserService.hashPassword p = UserService.hashPassword q) :=
  ⟨fun p => by simp [UserService.verifyPassword],
   fun p d => rfl,
   fun p q => by simp [UserService.verifyPassword]⟩

/-- An issued token is never the empty string: it starts with the fixed
37-character header. -/
theorem generateToken_ne_empty (uid : String) :
    UserService.generateToken uid ≠ "" := by
  unfold UserService.generateToken
  intro hcontra
  have hlen := congrArg String.length hcontra
  rw [String.length_append] at hlen
  have h1 : ("eyJhbGciOiJIUzI1NiIsInR5cCI6IkpXVCJ9." : String).length = 37 := by
    decide
  have h2 : ("" : String).length = 0 := rfl
  rw [h1, h2] at hlen
  omega

/-- C8: from any store with no live user under a valid email, if
`Register` succeeds then `Login` with the same email and password
succeeds and returns a non-empty token. -/
theorem C8_register_then_login (s : Store) (e pw fn ln : String)
    (_hve : specValidEmail e = true) (_hvp : specValidPassword pw = true)
    (hno : noActiveUser s e = true)
    (hok : succeeded (UserService.Register noFaults s ⟨e, pw, fn, ln⟩) = true) :
    ∃ a, UserService.Login noFaults
        (okStore (UserService.Register noFaults s ⟨e, pw, fn, ln⟩))
        ⟨e, pw⟩ = .ok a ∧ a.token ≠ "" := by
  obtain ⟨he, hany⟩ := register_ok_elim noFaults s ⟨e, pw, fn, ln⟩ hok
  dsimp only at he
  rw [he]
  simp only [okStore]
  have hfilter : (s.users ++
      [(⟨"", e, UserService.hashPassword pw, fn, ln, s.now, s.now,
         none⟩ : User)]).filter
        (fun v => v.deletedAt == none && v.email == e) =
      [(⟨"", e, UserService.hashPassword pw, fn, ln, s.now, s.now,
         none⟩ : User)] := by
    rw [List.filter_append]
    rw [filter_nil_of_noActive s e hno]
    simp
  have hlook := getByEmail_single
      ⟨s.users ++ [(⟨"", e, UserService.hashPassword pw, fn, ln, s.now,
         s.now, none⟩ : User)], s.now⟩ e _ hfilter
  have hlogin := login_eq_of_lookup_ok noFaults _ ⟨e, pw⟩ _ hlook
  dsimp only at hlogin
  have hv : UserService.verifyPassword pw
      (UserService.hashPassword pw) = true := by
    simp [UserService.verifyPassword]
  rw [hv] at hlogin
  simp only [Bool.not_true, Bool.false_eq_true, if_false] at hlogin
  exact ⟨_, hlogin, generateToken_ne_empty _⟩

/-- Witness for `C8_register_then_login`: the spec's §8 credentials
against an empty store. -/
theorem C8_register_then_login_witness :
    ∃ a, UserService.Login noFaults
        (okStore (UserService.Register noFaults emptyStore
          ⟨"a@x.com", "secret1", "A", ""⟩)) ⟨"a@x.com", "secret1"⟩ =
      .ok a ∧ a.token ≠ "" :=
  C8_register_then_login emptyStore "a@x.com" "secret1" "A" ""
    (by decide) (by decide) (by decide) (by decide)
